import Mathlib

/-!
Verification of the `subratamondal1/blog` service (`app/main.py`).

The program constructs a FastAPI application from two configuration
strings, registers a single route `GET /` whose handler `index` returns
the literal greeting string, and declares an unused module-level constant
`pic : Image` (a 5×5 grid of floating-point zeros).

Embedding notes:
* `core.config.settings` is not part of the provided sources; the spec
  says its source and format are out of scope, so the development is
  parameterized over an arbitrary `Settings` record.
* Python handlers may read and write module-level globals, so a handler
  is embedded as a function `G → Request → G × String` over the mutable
  globals `G`; the embedding of `index` ignores both, exactly as the
  source body `return "Hello, World! - Subrata Mondal 🚀"` does.
* The grid entries are the float literal `0.0`, which denotes exactly
  the rational number `0`; the grid is therefore embedded over `ℚ`.
  No floating-point arithmetic occurs anywhere in the program.
-/

namespace Blog

/-- HTTP request methods. -/
inductive Method where
  | GET
  | POST
  | PUT
  | DELETE
  | PATCH
  | HEAD
  | OPTIONS
deriving DecidableEq, Repr

/-- An HTTP request: method, path, and the request content the handler
could in principle inspect (query parameters, headers, body). -/
structure Request where
  method : Method
  path : String
  query : List (String × String)
  headers : List (String × String)
  body : String
deriving DecidableEq, Repr

/-- An HTTP response: status code and body. -/
structure Response where
  status : Nat
  body : String
deriving DecidableEq, Repr

/-- The two configuration values read from `core.config.settings`.
Modelled from the spec: the configuration loader `core.config` is not
among the provided sources ("source and format of these settings are an
external collaborator ... out of scope"), so the settings are an
abstract pair of strings. -/
structure Settings where
  PROJECT_TITLE : String
  PROJECT_VERSION : String
deriving DecidableEq, Repr

/-- `Image = list[list[float]]` from `app/main.py`; float literals in the
program are all `0.0`, exactly representable, embedded as rationals. -/
abbrev Image := List (List ℚ)

/-- `pic : Image` from `app/main.py`: the 5×5 grid of `0.0` literals. -/
def pic : Image := [
  [0, 0, 0, 0, 0],
  [0, 0, 0, 0, 0],
  [0, 0, 0, 0, 0],
  [0, 0, 0, 0, 0],
  [0, 0, 0, 0, 0]
]

/-- The mutable module-level state of `app/main.py`: the application
metadata (mutable attributes of the `app` object) and the grid `pic`. -/
structure Globals where
  title : String
  version : String
  pic : Image
deriving DecidableEq, Repr

/-- A registered route: method, path, and handler.  A handler may read
the request and read or write the module globals. -/
structure Route (G : Type) where
  method : Method
  path : String
  handler : G → Request → G × String

/-- The FastAPI application object: metadata and registered routes. -/
structure FastAPI (G : Type) where
  title : String
  version : String
  routes : List (Route G)

/-- `FastAPI(title=..., version=...)`: a fresh application with the given
metadata and no routes. -/
def FastAPI.ofSettings (G : Type) (s : Settings) : FastAPI G :=
  { title := s.PROJECT_TITLE, version := s.PROJECT_VERSION, routes := [] }

/-- `@app.get(path)` applied to a handler: registers a GET route. -/
def FastAPI.addGet {G : Type} (a : FastAPI G) (path : String)
    (handler : G → Request → G × String) : FastAPI G :=
  { a with routes := a.routes ++ [{ method := .GET, path := path, handler := handler }] }

/-- `def index() -> str: return "Hello, World! - Subrata Mondal 🚀"`.
The Python function takes no parameters and touches no globals, so its
embedding ignores both arguments and returns the globals unchanged. -/
def index : Globals → Request → Globals × String :=
  fun g _ => (g, "Hello, World! - Subrata Mondal 🚀")

/-- The application as built in `app/main.py`: constructed from the
settings, then `@app.get("/")` registers `index`. -/
def app (s : Settings) : FastAPI Globals :=
  (FastAPI.ofSettings Globals s).addGet "/" index

/-- The module globals right after import of `app/main.py`. -/
def initGlobals (s : Settings) : Globals :=
  { title := s.PROJECT_TITLE, version := s.PROJECT_VERSION, pic := pic }

/-- Modelled from the spec: the hosting framework dispatches a request to
the first route matching its method and path and wraps the returned
string in a `200` response; an unmatched request gets the framework's
default not-found response with status `404`. -/
def dispatch {G : Type} : List (Route G) → G → Request → G × Response
  | [], g, _ => (g, { status := 404, body := "Not Found" })
  | r :: rest, g, req =>
      if r.method = req.method ∧ r.path = req.path then
        let p := r.handler g req
        (p.1, { status := 200, body := p.2 })
      else dispatch rest g req

/-- Serving a sequence of requests, threading the mutable globals. -/
def serve {G : Type} (routes : List (Route G)) : G → List Request → G × List Response
  | g, [] => (g, [])
  | g, req :: rest =>
      let p := dispatch routes g req
      let q := serve routes p.1 rest
      (q.1, p.2 :: q.2)

/-- The route table of the program is the single binding `GET /` to `index`. -/
theorem app_routes (s : Settings) :
    (app s).routes = [{ method := .GET, path := "/", handler := index }] := rfl

/-- Dispatching any request through the program's routes leaves the
module globals unchanged. -/
theorem app_dispatch_fst (s : Settings) (g : Globals) (req : Request) :
    (dispatch (app s).routes g req).1 = g := by
  by_cases h : (Method.GET = req.method ∧ "/" = req.path) <;>
    simp [app, FastAPI.ofSettings, FastAPI.addGet, dispatch, index, h]

/-- The response of the program to a `GET /` request. -/
theorem app_dispatch_root (s : Settings) (g : Globals) (req : Request)
    (hm : req.method = .GET) (hp : req.path = "/") :
    (dispatch (app s).routes g req).2 =
      { status := 200, body := "Hello, World! - Subrata Mondal 🚀" } := by
  simp [app, FastAPI.ofSettings, FastAPI.addGet, dispatch, index, hm, hp]

/-- Serving any request sequence leaves the module globals unchanged. -/
theorem app_serve_fst (s : Settings) (g : Globals) (reqs : List Request) :
    (serve (app s).routes g reqs).1 = g := by
  induction reqs generalizing g with
  | nil => rfl
  | cons req rest ih =>
      simp [serve, app_dispatch_fst, ih]

/-- The response of the program to any request never depends on the
module globals. -/
theorem app_dispatch_snd_congr (s : Settings) (g g2 : Globals) (req : Request) :
    (dispatch (app s).routes g req).2 = (dispatch (app s).routes g2 req).2 := by
  by_cases h : (Method.GET = req.method ∧ "/" = req.path) <;>
    simp [app, FastAPI.ofSettings, FastAPI.addGet, dispatch, index, h]

/-- The variant of the program with the declarations `Image` and `pic`
removed: the module globals are only the application metadata. -/
structure GlobalsNP where
  title : String
  version : String
deriving DecidableEq, Repr

/-- The handler `index` of the pic-free variant. -/
def indexNP : GlobalsNP → Request → GlobalsNP × String :=
  fun g _ => (g, "Hello, World! - Subrata Mondal 🚀")

/-- The application of the pic-free variant. -/
def appNP (s : Settings) : FastAPI GlobalsNP :=
  (FastAPI.ofSettings GlobalsNP s).addGet "/" indexNP

/-- The module globals of the pic-free variant after import. -/
def initGlobalsNP (s : Settings) : GlobalsNP :=
  { title := s.PROJECT_TITLE, version := s.PROJECT_VERSION }

/-- The original program and the pic-free variant give every single
request the same response. -/
theorem dispatch_np_congr (s : Settings) (g : Globals) (gn : GlobalsNP)
    (req : Request) :
    (dispatch (app s).routes g req).2 = (dispatch (appNP s).routes gn req).2 := by
  by_cases h : (Method.GET = req.method ∧ "/" = req.path) <;>
    simp [app, appNP, FastAPI.ofSettings, FastAPI.addGet, dispatch, index, indexNP, h]

/-- The original program and the pic-free variant give every request
sequence the same response sequence. -/
theorem serve_np_congr (s : Settings) (reqs : List Request) (g : Globals)
    (gn : GlobalsNP) :
    (serve (app s).routes g reqs).2 = (serve (appNP s).routes gn reqs).2 := by
  induction reqs generalizing g gn with
  | nil => rfl
  | cons req rest ih =>
      simp only [serve, List.cons.injEq]
      exact ⟨dispatch_np_congr s g gn req, ih _ _⟩

/- Concrete inputs used by the witnesses. -/

/-- A sample configuration. -/
def s0 : Settings := { PROJECT_TITLE := "Blog", PROJECT_VERSION := "0.1.0" }

/-- A plain `GET /` request. -/
def req0 : Request := { method := .GET, path := "/", query := [], headers := [], body := "" }

/-- A `GET /` request carrying a query parameter, a header and a body. -/
def req1 : Request :=
  { method := .GET, path := "/", query := [("q", "1")],
    headers := [("x-demo", "yes")], body := "payload" }

/-- A request to an unregistered path. -/
def reqMiss : Request := { method := .GET, path := "/missing", query := [], headers := [], body := "" }

/-- C1: every `GET /` request is answered with status 200 and body exactly
`"Hello, World! - Subrata Mondal 🚀"`; the handler `index` always returns
that exact string. -/
theorem C1_get_root_response (s : Settings) (g : Globals) (req : Request)
    (hm : req.method = .GET) (hp : req.path = "/") :
    (dispatch (app s).routes g req).2 =
      { status := 200, body := "Hello, World! - Subrata Mondal 🚀" } ∧
    (index g req).2 = "Hello, World! - Subrata Mondal 🚀" :=
  ⟨app_dispatch_root s g req hm hp, rfl⟩

/-- C1 witness at concrete inputs. -/
theorem C1_get_root_response_witness :
    req0.method = .GET ∧ req0.path = "/" ∧
    ((dispatch (app s0).routes (initGlobals s0) req0).2 =
      { status := 200, body := "Hello, World! - Subrata Mondal 🚀" } ∧
     (index (initGlobals s0) req0).2 = "Hello, World! - Subrata Mondal 🚀") :=
  ⟨rfl, rfl, C1_get_root_response s0 (initGlobals s0) req0 rfl rfl⟩

/-- C2: after any two request histories, two `GET /` invocations return
equal responses: the response is identical across repeated calls and no
state accumulates. -/
theorem C2_idempotent (s : Settings) (g : Globals)
    (hist₁ hist₂ : List Request) (req₁ req₂ : Request)
    (hm₁ : req₁.method = .GET) (hp₁ : req₁.path = "/")
    (hm₂ : req₂.method = .GET) (hp₂ : req₂.path = "/") :
    (dispatch (app s).routes (serve (app s).routes g hist₁).1 req₁).2 =
      (dispatch (app s).routes (serve (app s).routes g hist₂).1 req₂).2 := by
  rw [app_serve_fst, app_serve_fst, app_dispatch_root s g req₁ hm₁ hp₁,
    app_dispatch_root s g req₂ hm₂ hp₂]

/-- C2 witness at concrete inputs: a fresh call and a call after two
previous requests agree. -/
theorem C2_idempotent_witness :
    req0.method = .GET ∧ req0.path = "/" ∧ req1.method = .GET ∧ req1.path = "/" ∧
    (dispatch (app s0).routes (serve (app s0).routes (initGlobals s0) []).1 req0).2 =
      (dispatch (app s0).routes
        (serve (app s0).routes (initGlobals s0) [reqMiss, req1]).1 req1).2 :=
  ⟨rfl, rfl, rfl, rfl,
    C2_idempotent s0 (initGlobals s0) [] [reqMiss, req1] req0 req1 rfl rfl rfl rfl⟩

/-- C3: the handler reads no part of the request: two `GET /` requests
that differ in query parameters, headers, or body get the same response. -/
theorem C3_noninterference (s : Settings) (g : Globals) (req₁ req₂ : Request)
    (hm₁ : req₁.method = .GET) (hp₁ : req₁.path = "/")
    (hm₂ : req₂.method = .GET) (hp₂ : req₂.path = "/") :
    (dispatch (app s).routes g req₁).2 = (dispatch (app s).routes g req₂).2 := by
  rw [app_dispatch_root s g req₁ hm₁ hp₁, app_dispatch_root s g req₂ hm₂ hp₂]

/-- C3 witness at concrete inputs: a bare request and one with query,
header and body get the same response. -/
theorem C3_noninterference_witness :
    req0.method = .GET ∧ req0.path = "/" ∧ req1.method = .GET ∧ req1.path = "/" ∧
    (dispatch (app s0).routes (initGlobals s0) req0).2 =
      (dispatch (app s0).routes (initGlobals s0) req1).2 :=
  ⟨rfl, rfl, rfl, rfl, C3_noninterference s0 (initGlobals s0) req0 req1 rfl rfl rfl rfl⟩

/-- C4: every request whose path is not `/` gets status 404, since `/` is
the only registered route. -/
theorem C4_not_found (s : Settings) (g : Globals) (req : Request)
    (hp : req.path ≠ "/") :
    (dispatch (app s).routes g req).2.status = 404 := by
  have h : ¬(Method.GET = req.method ∧ "/" = req.path) :=
    fun hc => hp hc.2.symm
  simp [app, FastAPI.ofSettings, FastAPI.addGet, dispatch, h]

/-- C4 witness at a concrete unregistered path. -/
theorem C4_not_found_witness :
    reqMiss.path ≠ "/" ∧
    (dispatch (app s0).routes (initGlobals s0) reqMiss).2.status = 404 :=
  ⟨by decide, C4_not_found s0 (initGlobals s0) reqMiss (by decide)⟩

/-- C5: the program registers exactly one route, `GET /` bound to `index`,
and that handler returns a fixed string. -/
theorem C5_single_route (s : Settings) :
    (app s).routes = [{ method := Method.GET, path := "/", handler := index }] ∧
    ∀ (g : Globals) (req : Request),
      (index g req).2 = "Hello, World! - Subrata Mondal 🚀" :=
  ⟨app_routes s, fun _ _ => rfl⟩

/-- C6: the application metadata is set at construction from
`PROJECT_TITLE` and `PROJECT_VERSION` and no request handling mutates it. -/
theorem C6_metadata_immutable (s : Settings) :
    (app s).title = s.PROJECT_TITLE ∧ (app s).version = s.PROJECT_VERSION ∧
    (initGlobals s).title = s.PROJECT_TITLE ∧
    (initGlobals s).version = s.PROJECT_VERSION ∧
    ∀ (g : Globals) (reqs : List Request),
      (serve (app s).routes g reqs).1.title = g.title ∧
      (serve (app s).routes g reqs).1.version = g.version :=
  ⟨rfl, rfl, rfl, rfl, fun g reqs => by rw [app_serve_fst]; exact ⟨rfl, rfl⟩⟩

/-- C7: handling a `GET /` request leaves the whole module state (the
application metadata and the grid) unchanged. -/
theorem C7_no_side_effects (s : Settings) (g : Globals) (req : Request)
    (_hm : req.method = .GET) (_hp : req.path = "/") :
    (dispatch (app s).routes g req).1 = g :=
  app_dispatch_fst s g req

/-- C7 witness at concrete inputs. -/
theorem C7_no_side_effects_witness :
    req0.method = .GET ∧ req0.path = "/" ∧
    (dispatch (app s0).routes (initGlobals s0) req0).1 = initGlobals s0 :=
  ⟨rfl, rfl, C7_no_side_effects s0 (initGlobals s0) req0 rfl rfl⟩

/-- C8: every element of the grid constant `pic` is zero, no request
handling mutates it, and the response never depends on the module globals
(in particular `pic` is never passed into the response or serialized). -/
theorem C8_pic_inert :
    (∀ row ∈ pic, ∀ x ∈ row, x = 0) ∧
    (∀ (s : Settings) (g : Globals) (req : Request),
      (dispatch (app s).routes g req).1.pic = g.pic) ∧
    (∀ (s : Settings) (g g2 : Globals) (req : Request),
      (dispatch (app s).routes g req).2 = (dispatch (app s).routes g2 req).2) :=
  ⟨by decide,
   fun s g req => congrArg Globals.pic (app_dispatch_fst s g req),
   fun s g g2 req => app_dispatch_snd_congr s g g2 req⟩

/-- C9: the grid constant is dead code: the program with `Image` and `pic`
removed answers every request sequence identically and has the same
metadata and route table shape. -/
theorem C9_pic_dead_code (s : Settings) (reqs : List Request) :
    (serve (app s).routes (initGlobals s) reqs).2 =
      (serve (appNP s).routes (initGlobalsNP s) reqs).2 ∧
    (app s).title = (appNP s).title ∧
    (app s).version = (appNP s).version ∧
    (app s).routes.map (fun r => (r.method, r.path)) =
      (appNP s).routes.map (fun r => (r.method, r.path)) :=
  ⟨serve_np_congr s reqs (initGlobals s) (initGlobalsNP s), rfl, rfl, rfl⟩

/-- C10: `pic` has exactly 5 rows, every row has exactly 5 elements, and
the value returned by `index` is a non-empty string. -/
theorem C10_pic_shape :
    pic.length = 5 ∧ (∀ row ∈ pic, row.length = 5) ∧
    ∀ (g : Globals) (req : Request), (index g req).2 ≠ "" :=
  ⟨rfl, by decide, fun _ _ h =>
    absurd h (by decide : ¬("Hello, World! - Subrata Mondal 🚀" = ""))⟩

end Blog
